import Mathlib

/-!
Verification of the daily-market-news cloud function (src/main.py) against its
natural-language specification.  The Python source is shallowly embedded:
pure helpers become Lean functions, external services (HTTP, the generative
model, cloud storage, the standard-library JSON decoder) become oracle fields
of explicit environment structures, and Python exceptions become `Except`.
-/

/-! ## Instants and Gregorian calendar rendering

Python `datetime` values are modelled as a day count since 1970-01-01
(proleptic Gregorian) plus a time of day.  `strftime` directives are
reproduced: `%A`/`%B` full English names, `%d`/`%H`/`%M`/`%S` zero-padded
two-digit numbers, `%Y` the year number.
-/

structure Instant where
  days : ℤ
  hour : ℕ
  minute : ℕ
  second : ℕ
deriving DecidableEq, Repr

structure CivilDate where
  year : ℤ
  month : ℕ
  day : ℕ
deriving DecidableEq, Repr

/-- Day count since 1970-01-01 to proleptic-Gregorian year/month/day.
Divisions are floor divisions (Lean `Int` `/` is Euclidean, which agrees
with floor for the positive divisors used here), matching Python `//`. -/
def civilFromDays (z0 : ℤ) : CivilDate :=
  let z := z0 + 719468
  let era : ℤ := z / 146097
  let doe : ℤ := z - era * 146097
  let yoe : ℤ := (doe - doe / 1460 + doe / 36524 - doe / 146096) / 365
  let y : ℤ := yoe + era * 400
  let doy : ℤ := doe - (365 * yoe + yoe / 4 - yoe / 100)
  let mp : ℤ := (5 * doy + 2) / 153
  let d : ℤ := doy - (153 * mp + 2) / 5 + 1
  let m : ℤ := if mp < 10 then mp + 3 else mp - 9
  { year := y + (if m ≤ 2 then 1 else 0), month := m.toNat, day := d.toNat }

/-- Python `date.weekday()`: Monday = 0 … Sunday = 6.
1970-01-01 (day 0) was a Thursday (weekday 3). -/
def pyWeekday (days : ℤ) : ℤ :=
  (days + 3) % 7

/-- `%A`: full English weekday name, indexed by `pyWeekday`. -/
def weekdayName (w : ℤ) : String :=
  if w = 0 then "Monday"
  else if w = 1 then "Tuesday"
  else if w = 2 then "Wednesday"
  else if w = 3 then "Thursday"
  else if w = 4 then "Friday"
  else if w = 5 then "Saturday"
  else "Sunday"

/-- `%B`: full English month name. -/
def monthName (m : ℕ) : String :=
  if m = 1 then "January"
  else if m = 2 then "February"
  else if m = 3 then "March"
  else if m = 4 then "April"
  else if m = 5 then "May"
  else if m = 6 then "June"
  else if m = 7 then "July"
  else if m = 8 then "August"
  else if m = 9 then "September"
  else if m = 10 then "October"
  else if m = 11 then "November"
  else "December"

/-- Two-digit zero-padded rendering, as in `%d`, `%H`, `%M`, `%S`. -/
def pad2 (n : ℕ) : String :=
  if n < 10 then "0" ++ toString n else toString n

/-- Python `strftime` restricted to the four format strings the source uses. -/
def strftimeLong (i : Instant) : String :=
  let c := civilFromDays i.days
  weekdayName (pyWeekday i.days) ++ ", " ++ monthName c.month ++ " " ++
    pad2 c.day ++ ", " ++ toString c.year

/-- `%Y-%m-%d %H:%M:%S`, the generation timestamp format. -/
def strftimeStamp (i : Instant) : String :=
  let c := civilFromDays i.days
  toString c.year ++ "-" ++ pad2 c.month ++ "-" ++ pad2 c.day ++ " " ++
    pad2 i.hour ++ ":" ++ pad2 i.minute ++ ":" ++ pad2 i.second

/-- `%Y-%m-%d_%H-%M-%S`, the storage-key timestamp format. -/
def strftimeKey (i : Instant) : String :=
  let c := civilFromDays i.days
  toString c.year ++ "-" ++ pad2 c.month ++ "-" ++ pad2 c.day ++ "_" ++
    pad2 i.hour ++ "-" ++ pad2 i.minute ++ "-" ++ pad2 i.second

/-! ## DateCalculator (src/main.py lines 22-49) -/

/-- `get_formatted_date`: `date.strftime(a format with weekday, month, day, year)`. -/
def get_formatted_date (date : Instant) : String :=
  strftimeLong date

/-- The `prev` value computed inside `get_previous_trading_day_str`:
Monday goes back 3 days, Sunday 2, Saturday 1, Tuesday-Friday 1. -/
def previous_trading_date (date : Instant) : Instant :=
  let day := pyWeekday date.days
  if day = 0 then { date with days := date.days - 3 }
  else if day = 6 then { date with days := date.days - 2 }
  else if day = 5 then { date with days := date.days - 1 }
  else { date with days := date.days - 1 }

/-- `get_previous_trading_day_str`: the previous trading date rendered
with the same long format as `get_formatted_date`. -/
def get_previous_trading_day_str (date : Instant) : String :=
  strftimeLong (previous_trading_date date)

/-- C2: for every reference instant, `previous_trading_day` subtracts 3
calendar days on Monday, 1 on Saturday, 2 on Sunday and 1 on Tuesday-Friday,
returns that prior date rendered by the long weekday/month format, and in the
Monday, Saturday and Sunday cases the resulting date falls on a Friday. -/
theorem previousTradingDay_offsets (d : Instant) :
    (pyWeekday d.days = 0 →
      get_previous_trading_day_str d = strftimeLong { d with days := d.days - 3 } ∧
      pyWeekday (d.days - 3) = 4) ∧
    (pyWeekday d.days = 5 →
      get_previous_trading_day_str d = strftimeLong { d with days := d.days - 1 } ∧
      pyWeekday (d.days - 1) = 4) ∧
    (pyWeekday d.days = 6 →
      get_previous_trading_day_str d = strftimeLong { d with days := d.days - 2 } ∧
      pyWeekday (d.days - 2) = 4) ∧
    (1 ≤ pyWeekday d.days ∧ pyWeekday d.days ≤ 4 →
      get_previous_trading_day_str d = strftimeLong { d with days := d.days - 1 }) := by
  refine ⟨fun h => ⟨?_, ?_⟩, fun h => ⟨?_, ?_⟩, fun h => ⟨?_, ?_⟩, fun h => ?_⟩
  · simp [get_previous_trading_day_str, previous_trading_date, h]
  · simp only [pyWeekday] at h ⊢; omega
  · simp [get_previous_trading_day_str, previous_trading_date, h]
  · simp only [pyWeekday] at h ⊢; omega
  · simp [get_previous_trading_day_str, previous_trading_date, h]
  · simp only [pyWeekday] at h ⊢; omega
  · have h1 : pyWeekday d.days ≠ 0 := by omega
    have h2 : pyWeekday d.days ≠ 6 := by omega
    have h3 : pyWeekday d.days ≠ 5 := by omega
    simp [get_previous_trading_day_str, previous_trading_date, h1, h2, h3]

/-- Witness for C2 at concrete instants: Monday 2025-01-06 (day 20094),
Saturday 2025-01-04 (day 20092), Sunday 2025-01-05 (day 20093) and
Tuesday 2025-01-07 (day 20095). -/
theorem previousTradingDay_offsets_witness :
    (get_previous_trading_day_str ⟨20094, 0, 0, 0⟩ =
        strftimeLong ⟨20091, 0, 0, 0⟩ ∧ pyWeekday 20091 = 4) ∧
    (get_previous_trading_day_str ⟨20092, 0, 0, 0⟩ =
        strftimeLong ⟨20091, 0, 0, 0⟩ ∧ pyWeekday 20091 = 4) ∧
    (get_previous_trading_day_str ⟨20093, 0, 0, 0⟩ =
        strftimeLong ⟨20091, 0, 0, 0⟩ ∧ pyWeekday 20091 = 4) ∧
    get_previous_trading_day_str ⟨20095, 0, 0, 0⟩ = strftimeLong ⟨20094, 0, 0, 0⟩ :=
  ⟨(previousTradingDay_offsets ⟨20094, 0, 0, 0⟩).1 (by decide),
   (previousTradingDay_offsets ⟨20092, 0, 0, 0⟩).2.1 (by decide),
   (previousTradingDay_offsets ⟨20093, 0, 0, 0⟩).2.2.1 (by decide),
   (previousTradingDay_offsets ⟨20095, 0, 0, 0⟩).2.2.2 (by decide)⟩

/-- C5: the previous trading date is strictly earlier than the reference
instant and never falls on a Saturday or a Sunday. -/
theorem previousTradingDay_invariant (d : Instant) :
    (previous_trading_date d).days < d.days ∧
    pyWeekday (previous_trading_date d).days ≠ 5 ∧
    pyWeekday (previous_trading_date d).days ≠ 6 := by
  simp only [previous_trading_date, pyWeekday]
  split_ifs with h0 h6 h5 <;> dsimp only <;> omega

/-- C8: `get_formatted_date` renders the day of month with `%d`, which is
zero-padded: 2025-01-07 (day 20095) renders with day "07", not "7", even
though the docstring promises the JavaScript long format (non-padded). -/
theorem formattedDate_day_is_zero_padded :
    get_formatted_date ⟨20095, 9, 30, 0⟩ = "Tuesday, January 07, 2025" ∧
    get_formatted_date ⟨20095, 9, 30, 0⟩ ≠ "Tuesday, January 7, 2025" := by
  constructor <;> decide

/-! ## MarketDataVerifier (src/main.py lines 52-79)

The two Finnhub HTTP responses are modelled as oracle values: `.error`
stands for any exception raised while fetching or JSON-decoding, `.ok`
for a decoded response whose relevant fields may be missing (`none`). -/

structure QuoteResp where
  c : Option ℚ
  dp : Option ℚ
deriving DecidableEq, Repr

structure ProfileResp where
  marketCapitalization : Option ℚ
  name : Option String
deriving DecidableEq, Repr

/-- Python truthiness of a numeric field read with `.get`: a missing field
(`None`) and a zero value are both falsy. -/
def falsyNum : Option ℚ → Bool
  | none => true
  | some v => v == 0

/-- The Mega-Cap Momentum predicate computed on line 75 of the source. -/
def isMegaCapMover (marketCap priceChange : ℚ) : Bool :=
  decide (200000 ≤ marketCap) && decide (2 ≤ |priceChange|)

structure FinnhubData where
  ticker : String
  name : String
  marketCap : ℚ
  priceChange : Option ℚ
  isMegaCapMover : Bool
deriving DecidableEq, Repr

/-- `fetch_finnhub_metrics`.  Note the guard on line 64 tests the quote
field `c` (current price) and the profile field `marketCapitalization`;
`dp` (percent change) is only read afterwards.  When `marketCapitalization`
is at least 200000 and `dp` is missing, `abs(None)` raises a `TypeError`
which the surrounding `except` maps to `None`; when the cap is below the
threshold the `and` short-circuits and the record is returned with
`priceChange` missing and the flag `False`. -/
def fetch_finnhub_metrics (ticker : String) (quote_resp : Except String QuoteResp)
    (profile_resp : Except String ProfileResp) : Option FinnhubData :=
  match quote_resp, profile_resp with
  | .error _, _ => none
  | _, .error _ => none
  | .ok q, .ok p =>
    if falsyNum q.c || falsyNum p.marketCapitalization then none
    else
      match p.marketCapitalization with
      | none => none
      | some market_cap =>
        if 200000 ≤ market_cap then
          match q.dp with
          | none => none
          | some price_change =>
            some { ticker := ticker, name := p.name.getD ticker,
                   marketCap := market_cap, priceChange := some price_change,
                   isMegaCapMover := isMegaCapMover market_cap price_change }
        else
          some { ticker := ticker, name := p.name.getD ticker,
                 marketCap := market_cap, priceChange := q.dp,
                 isMegaCapMover := false }

/-- C1: the Mega-Cap Momentum predicate holds exactly when the market cap
is at least 200000 million and the absolute percent change is at least 2,
both boundaries inclusive; in particular it holds at (200000, 2.0) and at
(200000, -2.0) and fails at (199999.99, 2.0). -/
theorem isMegaCapMover_spec :
    (∀ marketCap priceChange : ℚ,
      isMegaCapMover marketCap priceChange = true ↔
        (200000 ≤ marketCap ∧ 2 ≤ |priceChange|)) ∧
    isMegaCapMover 200000 2 = true ∧
    isMegaCapMover (19999999 / 100) 2 = false ∧
    isMegaCapMover 200000 (-2) = true := by
  refine ⟨fun marketCap priceChange => ?_, by norm_num [isMegaCapMover],
    by norm_num [isMegaCapMover], by norm_num [isMegaCapMover, abs]⟩
  simp [isMegaCapMover]

/-- C3 counterexample: a response with a truthy current price, a truthy
market capitalization of 300000 and a reported percent change of exactly 0
yields a populated quote (with the mover flag false), not absent, because
the guard on line 64 tests the current-price field `c`, not the
percent-change field `dp`. -/
theorem fetchMetrics_zero_change_counterexample :
    fetch_finnhub_metrics "AAPL" (.ok ⟨some 100, some 0⟩)
        (.ok ⟨some 300000, some "Apple Inc"⟩) =
      some ⟨"AAPL", "Apple Inc", 300000, some 0, false⟩ := by
  norm_num [fetch_finnhub_metrics, falsyNum, isMegaCapMover]

/-- C3 amended: `fetch_finnhub_metrics` returns absent exactly when a
lookup raises, or the quote current-price field is missing or zero, or the
profile market-capitalization field is missing or zero, or the market
capitalization passes the 200000 threshold while the percent-change field
is missing.  A reported 0% change with truthy price and cap yields a
populated quote. -/
theorem fetchMetrics_absent_iff :
    (∀ t e p, fetch_finnhub_metrics t (.error e) p = none) ∧
    (∀ t q e, fetch_finnhub_metrics t q (.error e) = none) ∧
    (∀ t q p, fetch_finnhub_metrics t (.ok q) (.ok p) = none ↔
      (falsyNum q.c = true ∨ falsyNum p.marketCapitalization = true ∨
        (q.dp = none ∧ ∃ mc, p.marketCapitalization = some mc ∧ 200000 ≤ mc))) := by
  refine ⟨fun t e p => by cases p <;> rfl, fun t q e => by cases q <;> rfl,
    fun t q p => ?_⟩
  obtain ⟨c, dp⟩ := q
  obtain ⟨mc, nm⟩ := p
  cases c with
  | none => simp [fetch_finnhub_metrics, falsyNum]
  | some cv =>
    cases mc with
    | none => simp [fetch_finnhub_metrics, falsyNum]
    | some mcv =>
      by_cases hc : cv = 0
      · simp [fetch_finnhub_metrics, falsyNum, hc]
      · by_cases hm : mcv = 0
        · simp [fetch_finnhub_metrics, falsyNum, hc, hm]
        · by_cases hcap : (200000 : ℚ) ≤ mcv
          · cases dp <;> simp [fetch_finnhub_metrics, falsyNum, hc, hm, hcap]
          · cases dp <;> simp [fetch_finnhub_metrics, falsyNum, hc, hm, hcap]

/-! ## The verification step (src/main.py lines 122-128) -/

/-- The per-ticker market-data environment: each ticker's two Finnhub
responses, as seen by `fetch_finnhub_metrics`. -/
structure MarketEnv where
  quoteOf : String → Except String QuoteResp
  profileOf : String → Except String ProfileResp

/-- `fetch_finnhub_metrics` applied to the responses for one ticker. -/
def fetchMetricsEnv (env : MarketEnv) (ticker : String) : Option FinnhubData :=
  fetch_finnhub_metrics ticker (env.quoteOf ticker) (env.profileOf ticker)

/-- Step 2 of `generate_market_brief`: collect the non-`None` fetch results
in input order (`verified_movers`), then keep those whose mover flag is set
(`mega_cap_movers`). -/
def verificationStep (fetch : String → Option FinnhubData)
    (tickers : List String) : List FinnhubData :=
  let verified_movers := tickers.filterMap fetch
  verified_movers.filter (fun m => m.isMegaCapMover)

theorem fetch_finnhub_metrics_ticker_eq (t : String) (q : Except String QuoteResp)
    (p : Except String ProfileResp) (d : FinnhubData)
    (h : fetch_finnhub_metrics t q p = some d) : d.ticker = t := by
  cases q with
  | error e => cases p <;> simp [fetch_finnhub_metrics] at h
  | ok qq =>
    cases p with
    | error e => simp [fetch_finnhub_metrics] at h
    | ok pp =>
      obtain ⟨c, dp⟩ := qq
      obtain ⟨mc, nm⟩ := pp
      cases c <;> cases mc <;> cases dp <;>
        simp only [fetch_finnhub_metrics, falsyNum] at h <;>
        split_ifs at h <;>
        simp only [Option.some.injEq, reduceCtorEq] at h <;>
        first
          | exact absurd h (by simp)
          | (rw [← h])

theorem filterMap_then_filter (f : String → Option FinnhubData)
    (l : List String) :
    (l.filterMap f).filter (fun m => m.isMegaCapMover) =
      l.filterMap (fun t => (f t).bind
        (fun d => if d.isMegaCapMover then some d else none)) := by
  induction l with
  | nil => rfl
  | cons t ts ih =>
    cases hf : f t with
    | none => simp [List.filterMap_cons, hf, ih]
    | some d =>
      by_cases hd : d.isMegaCapMover = true <;>
        simp [List.filterMap_cons, hf, hd, List.filter_cons, ih]

/-- C4: the verification step produces exactly the per-ticker filter of the
input list — each ticker contributes independently of the others, order and
duplicates are preserved — and the tickers of the produced records are
precisely the input tickers whose fetch succeeded with the mover flag set. -/
theorem verificationStep_spec (env : MarketEnv) (tickers : List String) :
    verificationStep (fetchMetricsEnv env) tickers =
      tickers.filterMap (fun t => (fetchMetricsEnv env t).bind
        (fun d => if d.isMegaCapMover then some d else none)) ∧
    (verificationStep (fetchMetricsEnv env) tickers).map (fun d => d.ticker) =
      tickers.filter (fun t =>
        ((fetchMetricsEnv env t).map (fun d => d.isMegaCapMover)).getD false) := by
  refine ⟨filterMap_then_filter (fetchMetricsEnv env) tickers, ?_⟩
  rw [verificationStep, filterMap_then_filter]
  induction tickers with
  | nil => rfl
  | cons t ts ih =>
    cases hf : fetchMetricsEnv env t with
    | none => simp [List.filterMap_cons, hf, List.filter_cons, ih]
    | some d =>
      have ht : d.ticker = t :=
        fetch_finnhub_metrics_ticker_eq t (env.quoteOf t) (env.profileOf t) d hf
      by_cases hd : d.isMegaCapMover = true <;>
        simp [List.filterMap_cons, hf, hd, List.filter_cons, ih, ht]

/-! ## BriefOrchestrator (src/main.py lines 82-211)

The external generative-AI service, the standard-library JSON decoder and
the process environment are oracle fields of `OrchEnv`; each `Except.error`
stands for a Python exception carrying its `str(e)` message. -/

structure SourceEntry where
  uri : String
  title : String
deriving DecidableEq, Repr

/-- One iteration of the uri-keyed map built on lines 185-189: Python dict
semantics, first-insertion key order, last write wins for the title. -/
def insertSource (acc : List SourceEntry) (e : SourceEntry) : List SourceEntry :=
  if acc.any (fun s => s.uri == e.uri) then
    acc.map (fun s => if s.uri == e.uri then { uri := s.uri, title := e.title } else s)
  else acc ++ [e]

/-- Lines 181-190: fold the grounding chunks (a chunk carrying a web uri
and title is `some`, any other chunk is `none`) into the deduplicated
source list. -/
def extractSources (chunks : List (Option SourceEntry)) : List SourceEntry :=
  chunks.foldl (fun acc c => match c with | some e => insertSource acc e | none => acc) []

structure StorageResult where
  success : Bool
  bucket : Option String := none
  filename : Option String := none
  error : Option String := none
deriving DecidableEq, Repr

/-- The dict returned by `generate_market_brief`, possibly extended with a
`storage` entry by the HTTP handler; `none` models an absent key. -/
structure BriefData where
  status : String
  content : Option String := none
  sources : Option (List SourceEntry) := none
  timestamp : String
  displayDate : Option String := none
  targetDate : Option String := none
  error : Option String := none
  storage : Option StorageResult := none
deriving DecidableEq, Repr

structure OrchEnv where
  /-- `os.environ.get` of the API key; `none` models an unset variable. -/
  apiKey : Option String
  /-- `datetime.now()` during the `try` body. -/
  nowGen : Instant
  /-- `datetime.now()` inside the `except` handler. -/
  nowErr : Instant
  /-- The discovery `generate_content` call: raises, or returns the text. -/
  discoveryText : Except String String
  /-- `json.loads` on the cleaned discovery text.  Modelled from the spec
  as an oracle: the decoder is Python standard library, external to this
  repository; only its success or failure reaches the claims. -/
  jsonLoads : String → Except String (List String)
  market : MarketEnv
  /-- The synthesis `generate_content` call. -/
  synthesisText : Except String String
  /-- Reading the grounding metadata; `.error` models an exception inside
  the extraction block, which the inner handler maps to an empty list. -/
  chunks : Except String (List (Option SourceEntry))

/-- Line 113: strip markdown code-fence decoration and whitespace. -/
def stripCodeFences (s : String) : String :=
  ((s.replace "```json" "").replace "```" "").trim

/-- The body of the `try` on lines 87-203; an `.error` is a raised
exception reaching the top-level handler. -/
def runBrief (env : OrchEnv) : Except String BriefData :=
  if env.apiKey.getD "" = "" then
    .error "GOOGLE_API_KEY environment variable not set"
  else
    let target_date := get_previous_trading_day_str env.nowGen
    let display_date := get_formatted_date env.nowGen
    match env.discoveryText with
    | .error e => .error e
    | .ok text =>
      match env.jsonLoads (stripCodeFences text) with
      | .error e => .error ("Could not parse ticker candidates: " ++ e)
      | .ok tickers =>
        let _mega_cap_movers := verificationStep (fetchMetricsEnv env.market) tickers
        match env.synthesisText with
        | .error e => .error e
        | .ok brief_content =>
          let sources := match env.chunks with
            | .ok cs => extractSources cs
            | .error _ => []
          let timestamp := strftimeStamp env.nowGen
          .ok { status := "success", content := some brief_content,
                sources := some sources, timestamp := timestamp,
                displayDate := some display_date,
                targetDate := some target_date }

/-- `generate_market_brief`: the `try` body with the top-level `except`
of lines 205-211. -/
def generate_market_brief (env : OrchEnv) : BriefData :=
  match runBrief env with
  | .ok r => r
  | .error e =>
    { status := "error", error := some e, timestamp := strftimeStamp env.nowErr }

/-- C6: every exception reaching the orchestration boundary produces
exactly the error-shaped result: status "error", the exception message,
a fresh timestamp, and no content, source or date entries; and every
successful run returns a fully populated success result, never a partial
one. -/
theorem orchestrator_error_handling (env : OrchEnv) :
    (∀ e, runBrief env = .error e →
      generate_market_brief env =
        { status := "error", content := none, sources := none,
          timestamp := strftimeStamp env.nowErr, displayDate := none,
          targetDate := none, error := some e, storage := none }) ∧
    (∀ r, runBrief env = .ok r →
      generate_market_brief env = r ∧ r.status = "success" ∧
      r.content.isSome = true ∧ r.sources.isSome = true ∧
      r.displayDate.isSome = true ∧ r.targetDate.isSome = true ∧
      r.error = none) := by
  constructor
  · intro e h
    simp [generate_market_brief, h]
  · intro r h
    refine ⟨by simp [generate_market_brief, h], ?_⟩
    unfold runBrief at h
    by_cases hk : env.apiKey.getD "" = ""
    · rw [if_pos hk] at h; exact absurd h (by simp)
    · rw [if_neg hk] at h
      cases hd : env.discoveryText with
      | error e => rw [hd] at h; simp at h
      | ok text =>
        rw [hd] at h; dsimp only at h
        cases hj : env.jsonLoads (stripCodeFences text) with
        | error e => rw [hj] at h; simp at h
        | ok tickers =>
          rw [hj] at h; dsimp only at h
          cases hs : env.synthesisText with
          | error e => rw [hs] at h; simp at h
          | ok brief_content =>
            rw [hs] at h
            simp only [Except.ok.injEq] at h
            rw [← h]
            simp

/-! ## StoragePublisher (src/main.py lines 214-249) -/

def BUCKET_NAME : String := "your-market-brief-bucket"

/-- The reduced projection serialized on lines 223-230. -/
structure SavedBrief where
  displayDate : Option String
  targetDate : Option String
  generatedAt : String
  content : Option String
  sources : List SourceEntry
  status : String
deriving DecidableEq, Repr

def data_to_save (brief_data : BriefData) : SavedBrief :=
  { displayDate := brief_data.displayDate,
    targetDate := brief_data.targetDate,
    generatedAt := brief_data.timestamp,
    content := brief_data.content,
    sources := brief_data.sources.getD [],
    status := brief_data.status }

structure StorageEnv where
  /-- `datetime.now()` at publish time. -/
  nowPub : Instant
  /-- Client construction plus blob upload of the serialized payload;
  `.error` is any raised storage exception. -/
  upload : SavedBrief → Except String Unit

/-- `save_to_cloud_storage`: builds the timestamped filename, uploads the
projection, and maps any exception to a failure record. -/
def save_to_cloud_storage (env : StorageEnv) (brief_data : BriefData) : StorageResult :=
  let timestamp := strftimeKey env.nowPub
  let filename := "market_brief_" ++ timestamp ++ ".json"
  match env.upload (data_to_save brief_data) with
  | .ok _ => { success := true, bucket := some BUCKET_NAME, filename := some filename }
  | .error e => { success := false, error := some e }

/-- A small success-status brief used as a concrete publish payload. -/
def demoBrief : BriefData :=
  { status := "success", content := some "report",
    sources := some [], timestamp := "2025-01-06 09:00:00",
    displayDate := some "Monday, January 06, 2025",
    targetDate := some "Friday, January 03, 2025" }

/-- A storage environment whose upload succeeds, publishing at
2025-01-06 09:30:00 (day 20094). -/
def demoOkStorage : StorageEnv :=
  { nowPub := ⟨20094, 9, 30, 0⟩, upload := fun _ => .ok () }

/-- C9 counterexample: at publish instant 2025-01-06 09:30:00 the key
written is "market_brief_2025-01-06_09-30-00.json", which is not of the
claimed exact form market_brief_YYYY-MM-DD_HH-MM-SS: the source appends a
".json" suffix on line 221. -/
theorem storageKey_counterexample :
    (save_to_cloud_storage demoOkStorage demoBrief).filename =
      some "market_brief_2025-01-06_09-30-00.json" ∧
    "market_brief_2025-01-06_09-30-00.json" ≠
      "market_brief_" ++ strftimeKey ⟨20094, 9, 30, 0⟩ := by
  constructor <;> decide

/-- C9 amended: every successful publish writes the key
market_brief_YYYY-MM-DD_HH-MM-SS.json built from the publish-time instant,
while the generation timestamp embedded in the stored payload is taken
unchanged from the brief. -/
theorem storageKey_amended (env : StorageEnv) (brief_data : BriefData)
    (h : env.upload (data_to_save brief_data) = .ok ()) :
    (save_to_cloud_storage env brief_data).filename =
      some ("market_brief_" ++ strftimeKey env.nowPub ++ ".json") ∧
    (save_to_cloud_storage env brief_data).success = true ∧
    (data_to_save brief_data).generatedAt = brief_data.timestamp := by
  refine ⟨?_, ?_, rfl⟩ <;> simp [save_to_cloud_storage, h]

/-- Witness for C9 (amended) at the concrete publish environment. -/
theorem storageKey_amended_witness :
    (save_to_cloud_storage demoOkStorage demoBrief).filename =
      some ("market_brief_" ++ strftimeKey demoOkStorage.nowPub ++ ".json") ∧
    (save_to_cloud_storage demoOkStorage demoBrief).success = true ∧
    (data_to_save demoBrief).generatedAt = demoBrief.timestamp :=
  storageKey_amended demoOkStorage demoBrief rfl

/-! ## HttpEntryPoint (src/main.py lines 256-279) -/

structure HttpResponse where
  status : String
  message : String
  timestamp : String
  displayDate : Option String
  targetDate : Option String
  sources : List SourceEntry
  storage : Option StorageResult
deriving DecidableEq, Repr

structure HttpEnv where
  orch : OrchEnv
  storage : StorageEnv

/-- `generate_market_brief_http`: generate the brief, publish it only on
success, and map the result to a JSON body and an HTTP status code.  The
message is `brief_data.get` of the error key `or` the fixed success text:
an empty error string is falsy and falls through to the success text. -/
def generate_market_brief_http (env : HttpEnv) : HttpResponse × ℕ :=
  let brief0 := generate_market_brief env.orch
  let brief_data :=
    if brief0.status = "success" then
      { brief0 with storage := some (save_to_cloud_storage env.storage brief0) }
    else brief0
  let status_code := if brief_data.status = "success" then 200 else 500
  ({ status := brief_data.status,
     message := match brief_data.error with
       | some e => if e = "" then "Market brief generated successfully" else e
       | none => "Market brief generated successfully",
     timestamp := brief_data.timestamp,
     displayDate := brief_data.displayDate,
     targetDate := brief_data.targetDate,
     sources := brief_data.sources.getD [],
     storage := brief_data.storage }, status_code)

theorem generate_market_brief_storage_none (env : OrchEnv) :
    (generate_market_brief env).storage = none := by
  unfold generate_market_brief
  cases h : runBrief env with
  | error e => rfl
  | ok r =>
    unfold runBrief at h
    by_cases hk : env.apiKey.getD "" = ""
    · rw [if_pos hk] at h; exact absurd h (by simp)
    · rw [if_neg hk] at h
      cases hd : env.discoveryText with
      | error e => rw [hd] at h; simp at h
      | ok text =>
        rw [hd] at h; dsimp only at h
        cases hj : env.jsonLoads (stripCodeFences text) with
        | error e => rw [hj] at h; simp at h
        | ok tickers =>
          rw [hj] at h; dsimp only at h
          cases hs : env.synthesisText with
          | error e => rw [hs] at h; simp at h
          | ok brief_content =>
            rw [hs] at h
            simp only [Except.ok.injEq] at h
            rw [← h]

/-- C7: when the brief has success status the handler publishes it, keeps
status success and HTTP code 200 — and an upload failure only shows up as
a failure record in the storage field of the body; when the brief status
is not success no storage entry appears, the code is 500, and the response
does not depend on the storage environment at all (no publish happens). -/
theorem http_storage_policy (env : HttpEnv) :
    ((generate_market_brief env.orch).status = "success" →
      ((generate_market_brief_http env).1.storage =
          some (save_to_cloud_storage env.storage (generate_market_brief env.orch)) ∧
        (generate_market_brief_http env).1.status = "success" ∧
        (generate_market_brief_http env).2 = 200) ∧
      (∀ e, env.storage.upload (data_to_save (generate_market_brief env.orch)) = .error e →
        (generate_market_brief_http env).1.storage =
          some { success := false, bucket := none, filename := none, error := some e })) ∧
    ((generate_market_brief env.orch).status ≠ "success" →
      (generate_market_brief_http env).1.storage = none ∧
      (generate_market_brief_http env).2 = 500 ∧
      ∀ s2, generate_market_brief_http ⟨env.orch, s2⟩ = generate_market_brief_http env) := by
  constructor
  · intro hs
    refine ⟨⟨?_, ?_, ?_⟩, fun e he => ?_⟩
    · simp [generate_market_brief_http, hs]
    · simp [generate_market_brief_http, hs]
    · simp [generate_market_brief_http, hs]
    · simp [generate_market_brief_http, hs, save_to_cloud_storage, he]
  · intro hs
    refine ⟨?_, ?_, fun s2 => ?_⟩
    · simp [generate_market_brief_http, hs, generate_market_brief_storage_none]
    · simp [generate_market_brief_http, hs]
    · simp [generate_market_brief_http, hs]

/-- C10: when the orchestrator reports an error whose message is the empty
string, the body keeps status error and the code stays 500, but the message
field falls back to the fixed success text, because the source selects it
with a truthiness test on the error string. -/
theorem emptyError_message_is_success_text (env : HttpEnv)
    (h1 : (generate_market_brief env.orch).status = "error")
    (h2 : (generate_market_brief env.orch).error = some "") :
    (generate_market_brief_http env).1.status = "error" ∧
    (generate_market_brief_http env).2 = 500 ∧
    (generate_market_brief_http env).1.message =
      "Market brief generated successfully" := by
  have hne : (generate_market_brief env.orch).status ≠ "success" := by
    rw [h1]; decide
  refine ⟨?_, ?_, ?_⟩ <;> simp [generate_market_brief_http, hne, h1, h2]

/-! ## Concrete environments used as witnesses -/

/-- An orchestration environment with the API-key variable unset. -/
def demoFailEnv : OrchEnv :=
  { apiKey := none,
    nowGen := ⟨20095, 10, 0, 0⟩,
    nowErr := ⟨20095, 10, 0, 1⟩,
    discoveryText := .ok "[]",
    jsonLoads := fun _ => .ok [],
    market := { quoteOf := fun _ => .error "offline", profileOf := fun _ => .error "offline" },
    synthesisText := .ok "",
    chunks := .ok [] }

/-- An orchestration environment in which every step succeeds. -/
def demoOkEnv : OrchEnv :=
  { apiKey := some "key",
    nowGen := ⟨20095, 10, 0, 0⟩,
    nowErr := ⟨20095, 10, 0, 1⟩,
    discoveryText := .ok "[]",
    jsonLoads := fun _ => .ok [],
    market := { quoteOf := fun _ => .error "offline", profileOf := fun _ => .error "offline" },
    synthesisText := .ok "report text",
    chunks := .ok [] }

/-- The success brief produced by `demoOkEnv`. -/
def demoOkBrief : BriefData :=
  { status := "success", content := some "report text",
    sources := some [], timestamp := strftimeStamp demoOkEnv.nowGen,
    displayDate := some (get_formatted_date demoOkEnv.nowGen),
    targetDate := some (get_previous_trading_day_str demoOkEnv.nowGen) }

/-- Like `demoOkEnv` but the discovery call raises with an empty message. -/
def demoEmptyErrEnv : OrchEnv :=
  { demoOkEnv with discoveryText := .error "" }

/-- A storage environment whose upload raises. -/
def demoFailStorage : StorageEnv :=
  { nowPub := ⟨20094, 9, 30, 0⟩, upload := fun _ => .error "bucket unavailable" }

/-- Witness for C6: the unset-key environment yields exactly the
error-shaped result, and the all-steps-succeed environment yields the
fully populated success result. -/
theorem orchestrator_error_handling_witness :
    (generate_market_brief demoFailEnv =
      { status := "error", content := none, sources := none,
        timestamp := strftimeStamp demoFailEnv.nowErr, displayDate := none,
        targetDate := none,
        error := some "GOOGLE_API_KEY environment variable not set",
        storage := none }) ∧
    (generate_market_brief demoOkEnv = demoOkBrief ∧
      demoOkBrief.status = "success" ∧
      demoOkBrief.content.isSome = true ∧ demoOkBrief.sources.isSome = true ∧
      demoOkBrief.displayDate.isSome = true ∧ demoOkBrief.targetDate.isSome = true ∧
      demoOkBrief.error = none) :=
  ⟨(orchestrator_error_handling demoFailEnv).1
      "GOOGLE_API_KEY environment variable not set" rfl,
    (orchestrator_error_handling demoOkEnv).2 demoOkBrief rfl⟩

/-- Witness for C7: with a successful brief and a failing upload the body
keeps success status, code 200, and a failure storage record; with a failed
brief the code is 500, the storage field is absent, and swapping the
storage environment leaves the response unchanged. -/
theorem http_storage_policy_witness :
    ((generate_market_brief_http ⟨demoOkEnv, demoFailStorage⟩).1.storage =
        some { success := false, bucket := none, filename := none,
               error := some "bucket unavailable" } ∧
      (generate_market_brief_http ⟨demoOkEnv, demoFailStorage⟩).1.status = "success" ∧
      (generate_market_brief_http ⟨demoOkEnv, demoFailStorage⟩).2 = 200) ∧
    ((generate_market_brief_http ⟨demoFailEnv, demoOkStorage⟩).1.storage = none ∧
      (generate_market_brief_http ⟨demoFailEnv, demoOkStorage⟩).2 = 500 ∧
      generate_market_brief_http ⟨demoFailEnv, demoFailStorage⟩ =
        generate_market_brief_http ⟨demoFailEnv, demoOkStorage⟩) :=
  ⟨⟨((http_storage_policy ⟨demoOkEnv, demoFailStorage⟩).1 rfl).2
        "bucket unavailable" rfl,
    ((http_storage_policy ⟨demoOkEnv, demoFailStorage⟩).1 rfl).1.2.1,
    ((http_storage_policy ⟨demoOkEnv, demoFailStorage⟩).1 rfl).1.2.2⟩,
   ⟨((http_storage_policy ⟨demoFailEnv, demoOkStorage⟩).2 (by decide)).1,
    ((http_storage_policy ⟨demoFailEnv, demoOkStorage⟩).2 (by decide)).2.1,
    ((http_storage_policy ⟨demoFailEnv, demoOkStorage⟩).2 (by decide)).2.2
      demoFailStorage⟩⟩

/-- Witness for C10: a discovery exception with an empty message yields
status error, code 500, and the fixed success message. -/
theorem emptyError_message_is_success_text_witness :
    (generate_market_brief_http ⟨demoEmptyErrEnv, demoOkStorage⟩).1.status = "error" ∧
    (generate_market_brief_http ⟨demoEmptyErrEnv, demoOkStorage⟩).2 = 500 ∧
    (generate_market_brief_http ⟨demoEmptyErrEnv, demoOkStorage⟩).1.message =
      "Market brief generated successfully" :=
  emptyError_message_is_success_text ⟨demoEmptyErrEnv, demoOkStorage⟩ rfl rfl
